import Mathlib

/-!
Verification of the request-encoding layer of the scylla driver core:
the `Execute` and `Options` request variants of
`src/scylla-cql/src/frame/request/{execute,options}.rs`, their opcodes,
and the option-name constants.

Byte buffers are embedded as `List Nat` (each entry a byte value); the
Rust signature `fn serialize(&self, buf: &mut B) -> Result<(), ParseError>`
becomes explicit state passing: a function from the initial buffer to the
pair of the final buffer and an optional error (`none` meaning `Ok(())`).
The delegated query-parameters serializer is an out-of-scope collaborator,
so `Execute` carries it as an abstract buffer-to-buffer effect.
-/

namespace ScyllaCql

/-- Modelled from the spec: the structured encoding-failure type
`frame_errors::ParseError` (its declaration is not under `src/`; only its
uses are). The spec's error taxonomy names an oversized-field failure for
a statement id too long for the 16-bit length field; failures raised by
the delegated parameter serializer are arbitrary values of the same type,
carried opaquely. -/
inductive ParseError where
  | oversizedField : ParseError
  | delegated : String → ParseError
deriving DecidableEq, Repr

/-- Modelled from the spec: the wire-level request opcode enumeration
`RequestOpcode` (declared in `frame/request/mod.rs`, not under `src/`).
The spec names EXECUTE, OPTIONS, QUERY, PREPARE, BATCH among a fixed,
small opcode space. -/
inductive RequestOpcode where
  | startup
  | options
  | query
  | prepare
  | execute
  | register
  | batch
  | authResponse
deriving DecidableEq, Repr

/-- Modelled from the spec: the length-prefixed byte-block primitive
`types::write_short_bytes` (declared in `frame/types.rs`, not under
`src/`): it appends the 2-byte unsigned big-endian length of `v`, then
the raw bytes of `v`, and fails with the oversized-field error, appending
nothing, when the length exceeds the 16-bit range. -/
def write_short_bytes (v : List Nat) (buf : List Nat) :
    List Nat × Option ParseError :=
  if v.length ≤ 65535 then
    (buf ++ [v.length / 256, v.length % 256] ++ v, none)
  else
    (buf, some ParseError.oversizedField)

/-- The `Execute` request of `src/scylla-cql/src/frame/request/execute.rs`:
a server-assigned statement id (opaque bytes) and the delegated
query-parameters value, represented by the buffer effect of its
`serialize` method (final buffer plus optional error). -/
structure Execute where
  id : List Nat
  parameters : List Nat → List Nat × Option ParseError

/-- The associated constant `Execute::OPCODE = RequestOpcode::Execute`. -/
def Execute.OPCODE : RequestOpcode := RequestOpcode.execute

/-- `Execute::serialize`: write the statement id as a length-prefixed
short-bytes block, then delegate to the parameters serializer; each `?`
propagates the error unchanged. -/
def Execute.serialize (e : Execute) (buf : List Nat) :
    List Nat × Option ParseError :=
  match write_short_bytes e.id buf with
  | (buf1, some err) => (buf1, some err)
  | (buf1, none) => e.parameters buf1

/-- The `Options` request of `src/scylla-cql/src/frame/request/options.rs`:
a unit value with no payload fields. -/
structure Options where

/-- The associated constant `Options::OPCODE = RequestOpcode::Options`. -/
def Options.OPCODE : RequestOpcode := RequestOpcode.options

/-- `Options::serialize`: the body is empty, the buffer is untouched and
the result is always `Ok(())`. -/
def Options.serialize (_o : Options) (buf : List Nat) :
    List Nat × Option ParseError :=
  (buf, none)

/-- Option name constants of `options.rs` (key names for SUPPORTED/STARTUP). -/
def SCYLLA_SHARD_AWARE_PORT : String := "SCYLLA_SHARD_AWARE_PORT"

def SCYLLA_SHARD_AWARE_PORT_SSL : String := "SCYLLA_SHARD_AWARE_PORT_SSL"

def COMPRESSION : String := "COMPRESSION"

def CQL_VERSION : String := "CQL_VERSION"

def DRIVER_NAME : String := "DRIVER_NAME"

def DRIVER_VERSION : String := "DRIVER_VERSION"

/-- C1: for every statement id of byte length at most 65535 and every
parameters value that appends exactly `pbytes` in isolation, serializing
an Execute request appends the 2-byte big-endian length of the id, the
id bytes verbatim, then exactly `pbytes`. -/
theorem execute_serialize_short_id (id pbytes buf : List Nat)
    (p : List Nat → List Nat × Option ScyllaCql.ParseError)
    (hlen : id.length ≤ 65535)
    (hp : ∀ b, p b = (b ++ pbytes, none)) :
    ScyllaCql.Execute.serialize ⟨id, p⟩ buf =
      (buf ++ [id.length / 256, id.length % 256] ++ id ++ pbytes, none) := by
  simp [ScyllaCql.Execute.serialize, ScyllaCql.write_short_bytes, hlen, hp]

/-- Witness for C1 at id = [0x01, 0x02] and parameters serializing to
[0xAA]: the appended Execute body is [0x00, 0x02, 0x01, 0x02, 0xAA]. -/
theorem execute_serialize_short_id_witness :
    ScyllaCql.Execute.serialize ⟨[1, 2], fun b => (b ++ [170], none)⟩ [] =
      ([0, 2, 1, 2, 170], none) :=
  execute_serialize_short_id [1, 2] [170] []
    (fun b => (b ++ [170], none)) (by decide) (fun _ => rfl)

/-- C2: for every statement id of byte length exceeding 65535, serializing
an Execute request returns the oversized-field error and the buffer is
unchanged; the result does not depend on the parameter serializer `p` at
all (it is never invoked), and the function is total (no panic). -/
theorem execute_serialize_oversized_id (id buf : List Nat)
    (p : List Nat → List Nat × Option ScyllaCql.ParseError)
    (hlen : 65535 < id.length) :
    ScyllaCql.Execute.serialize ⟨id, p⟩ buf =
      (buf, some ScyllaCql.ParseError.oversizedField) := by
  simp [ScyllaCql.Execute.serialize, ScyllaCql.write_short_bytes,
    Nat.not_le.mpr hlen]

/-- Witness for C2 at a 65536-byte statement id: the oversized-field
error is returned and nothing is appended. -/
theorem execute_serialize_oversized_id_witness :
    ScyllaCql.Execute.serialize
        ⟨List.replicate 65536 0, fun b => (b ++ [170], none)⟩ [] =
      ([], some ScyllaCql.ParseError.oversizedField) :=
  execute_serialize_oversized_id (List.replicate 65536 0) []
    (fun b => (b ++ [170], none)) (by rw [List.length_replicate]; decide)

/-- C3: serializing an Options request succeeds and appends zero bytes,
leaving any buffer exactly as it was, and iterating the serialization any
number of times still leaves the buffer unchanged (idempotent no-op). -/
theorem options_serialize_noop (o : ScyllaCql.Options) (buf : List Nat)
    (n : Nat) :
    ScyllaCql.Options.serialize o buf = (buf, none) ∧
      (fun b => (ScyllaCql.Options.serialize o b).1)^[n] buf = buf := by
  refine ⟨rfl, ?_⟩
  induction n with
  | zero => rfl
  | succ k ih => rw [Function.iterate_succ_apply]; exact ih

/-- C4: for every statement id of valid length and every parameters value
whose serializer fails with error `err` (after transforming the buffer by
some `f`), serializing the Execute request returns exactly that error
value, unchanged, and the parameter serializer was invoked on the buffer
that already holds the statement-id block. -/
theorem execute_serialize_param_error (id buf : List Nat)
    (err : ScyllaCql.ParseError) (f : List Nat → List Nat)
    (p : List Nat → List Nat × Option ScyllaCql.ParseError)
    (hlen : id.length ≤ 65535)
    (hp : ∀ b, p b = (f b, some err)) :
    ScyllaCql.Execute.serialize ⟨id, p⟩ buf =
      (f (buf ++ [id.length / 256, id.length % 256] ++ id), some err) := by
  simp [ScyllaCql.Execute.serialize, ScyllaCql.write_short_bytes, hlen, hp]

/-- Witness for C4 at id = [0x01] and a parameter serializer failing with
a concrete delegated error: the same error value comes back. -/
theorem execute_serialize_param_error_witness :
    ScyllaCql.Execute.serialize
        ⟨[1], fun b => (b, some (ScyllaCql.ParseError.delegated "boom"))⟩ [] =
      ([0, 1, 1], some (ScyllaCql.ParseError.delegated "boom")) :=
  execute_serialize_param_error [1] [] (ScyllaCql.ParseError.delegated "boom")
    (fun b => b) (fun b => (b, some (ScyllaCql.ParseError.delegated "boom")))
    (by decide) (fun _ => rfl)

/-- C5: the operation tags are fixed constants: Execute's is EXECUTE,
Options' is OPTIONS, they are distinct, and reading the same variant's
tag twice yields the same value. -/
theorem opcode_constants :
    ScyllaCql.Execute.OPCODE = ScyllaCql.RequestOpcode.execute ∧
      ScyllaCql.Options.OPCODE = ScyllaCql.RequestOpcode.options ∧
      ScyllaCql.Execute.OPCODE ≠ ScyllaCql.Options.OPCODE ∧
      ScyllaCql.Execute.OPCODE = ScyllaCql.Execute.OPCODE ∧
      ScyllaCql.Options.OPCODE = ScyllaCql.Options.OPCODE :=
  ⟨rfl, rfl, by decide, rfl, rfl⟩

/-- C6: a zero-length statement id is valid: for every parameters value
appending `pbytes`, serializing an Execute request with an empty id
succeeds and appends the two bytes [0x00, 0x00] followed by the parameter
bytes. -/
theorem execute_serialize_empty_id (pbytes buf : List Nat)
    (p : List Nat → List Nat × Option ScyllaCql.ParseError)
    (hp : ∀ b, p b = (b ++ pbytes, none)) :
    ScyllaCql.Execute.serialize ⟨[], p⟩ buf =
      (buf ++ [0, 0] ++ pbytes, none) := by
  simp [ScyllaCql.Execute.serialize, ScyllaCql.write_short_bytes, hp]

/-- Witness for C6: empty id into a buffer holding [0x05], parameters
serializing to [0xAA]. -/
theorem execute_serialize_empty_id_witness :
    ScyllaCql.Execute.serialize ⟨[], fun b => (b ++ [170], none)⟩ [5] =
      ([5, 0, 0, 170], none) :=
  execute_serialize_empty_id [170] [5]
    (fun b => (b ++ [170], none)) (fun _ => rfl)

/-- C7: for both request variants and every initial buffer, serialization
only appends: whether it succeeds or fails, the initial contents stay an
unchanged leading segment of the final buffer (assuming the delegated
parameter serializer itself only appends, as its contract states). -/
theorem serialize_append_only (e : ScyllaCql.Execute) (o : ScyllaCql.Options)
    (buf : List Nat)
    (hp : ∀ b, ∃ t, (e.parameters b).1 = b ++ t) :
    (∃ t, (ScyllaCql.Execute.serialize e buf).1 = buf ++ t) ∧
      (∃ t, (ScyllaCql.Options.serialize o buf).1 = buf ++ t) := by
  constructor
  · by_cases h : e.id.length ≤ 65535
    · obtain ⟨t, ht⟩ := hp (buf ++ [e.id.length / 256, e.id.length % 256] ++ e.id)
      refine ⟨[e.id.length / 256, e.id.length % 256] ++ e.id ++ t, ?_⟩
      simp only [ScyllaCql.Execute.serialize, ScyllaCql.write_short_bytes,
        if_pos h]
      rw [ht]
      simp [List.append_assoc]
    · refine ⟨[], ?_⟩
      simp only [ScyllaCql.Execute.serialize, ScyllaCql.write_short_bytes,
        if_neg h]
      simp
  · exact ⟨[], by simp [ScyllaCql.Options.serialize]⟩

/-- Witness for C7 at a concrete Execute request, an Options request and
the initial buffer [0x09]. -/
theorem serialize_append_only_witness :
    (∃ t, (ScyllaCql.Execute.serialize
        ⟨[3], fun b => (b ++ [7], none)⟩ [9]).1 = [9] ++ t) ∧
      (∃ t, (ScyllaCql.Options.serialize ⟨⟩ [9]).1 = [9] ++ t) :=
  serialize_append_only ⟨[3], fun b => (b ++ [7], none)⟩ ⟨⟩ [9]
    (fun _b => ⟨[7], rfl⟩)

/-- C8: serialization is deterministic and pure: equal request values run
against buffers with equal initial contents produce equal outcomes and
equal final buffers, for both variants; no external state enters the
computation. -/
theorem serialize_deterministic (e₁ e₂ : ScyllaCql.Execute)
    (o₁ o₂ : ScyllaCql.Options) (b₁ b₂ : List Nat)
    (he : e₁ = e₂) (hb : b₁ = b₂) :
    ScyllaCql.Execute.serialize e₁ b₁ = ScyllaCql.Execute.serialize e₂ b₂ ∧
      ScyllaCql.Options.serialize o₁ b₁ =
        ScyllaCql.Options.serialize o₂ b₂ := by
  subst he; subst hb
  exact ⟨rfl, rfl⟩

/-- Witness for C8 at concrete equal requests and buffers. -/
theorem serialize_deterministic_witness :
    ScyllaCql.Execute.serialize ⟨[1], fun b => (b, none)⟩ [2] =
        ScyllaCql.Execute.serialize ⟨[1], fun b => (b, none)⟩ [2] ∧
      ScyllaCql.Options.serialize ⟨⟩ [2] =
        ScyllaCql.Options.serialize ⟨⟩ [2] :=
  serialize_deterministic ⟨[1], fun b => (b, none)⟩
    ⟨[1], fun b => (b, none)⟩ ⟨⟩ ⟨⟩ [2] [2] rfl rfl

/-- C9: the six option name constants equal their protocol-mandated wire
strings byte-for-byte; being plain constants, every access yields the
identical value and no operation in the core can mutate them. -/
theorem option_name_constants :
    ScyllaCql.SCYLLA_SHARD_AWARE_PORT = "SCYLLA_SHARD_AWARE_PORT" ∧
      ScyllaCql.SCYLLA_SHARD_AWARE_PORT_SSL = "SCYLLA_SHARD_AWARE_PORT_SSL" ∧
      ScyllaCql.COMPRESSION = "COMPRESSION" ∧
      ScyllaCql.CQL_VERSION = "CQL_VERSION" ∧
      ScyllaCql.DRIVER_NAME = "DRIVER_NAME" ∧
      ScyllaCql.DRIVER_VERSION = "DRIVER_VERSION" :=
  ⟨rfl, rfl, rfl, rfl, rfl, rfl⟩

/-- C10: serializing an Options request is total and infallible: for
every buffer state the error component of the result is `none`: the error
branch is never taken. -/
theorem options_serialize_infallible (o : ScyllaCql.Options)
    (buf : List Nat) :
    (ScyllaCql.Options.serialize o buf).2 = none :=
  rfl

end ScyllaCql
